import Mathlib

/-!
Verification of the task-completion control layer of the ERC3 store agent
(`src/erc_agent/store_agent.py`): the completion latch around the terminal
tool, the verification gate, the fallback finalizer that runs after the
agent loop, and the usage accountant.  Python values, tool keyword
arguments and the mutable module-level flags are embedded as explicit
Lean data; the external API client is an oracle parameter recording which
requests were dispatched.
-/

/-- A Python scalar value as it appears among a tool call's keyword
arguments. -/
inductive PyVal where
  | vnone
  | vint (n : Int)
  | vstr (s : String)
  | vbool (b : Bool)
deriving DecidableEq, Repr

/-- Keyword arguments of a tool call: an association list with unique keys,
mirroring a Python `kwargs` dict. -/
abbrev Kwargs := List (String × PyVal)

/-- `kwargs[k] = v` on a dict: replace the value stored under key `k`,
leaving every other entry unchanged. -/
def setKey : Kwargs → String → PyVal → Kwargs
  | [], _, _ => []
  | (k0, v0) :: t, k, v => (if k0 = k then (k0, v) else (k0, v0)) :: setKey t k v

/-- The page-size normalization at the top of `ERC3Tool._run`
(store_agent.py lines 138-142): if the arguments carry a non-None `page`
greater than 5, it is overwritten with 5; otherwise the arguments are left
untouched. -/
def clampPage (kwargs : Kwargs) : Kwargs :=
  match kwargs.lookup "page" with
  | some (PyVal.vint n) => if n > 5 then setKey kwargs "page" (PyVal.vint 5) else kwargs
  | _ => kwargs

/-- The module-level mutable flags `_response_provided`, `_verified` and
`_last_verify_payload` (store_agent.py lines 116-118), reset at the start
of each task.  The payload dict is an association list of string keys to
string values, exactly the shape built in `verify_function`. -/
structure RunState where
  response_provided : Bool
  verified : Bool
  last_verify_payload : List (String × String)
deriving DecidableEq, Repr

/-- The flag state after the reset at the start of `run_agent`
(store_agent.py lines 284-288). -/
def initialRunState : RunState :=
  { response_provided := false, verified := false, last_verify_payload := [] }

/-- Outcome of one call to `store_api.dispatch(request)` as observed by
`ERC3Tool._run`: a successful result serialized to JSON text, an
`ApiException` carrying `detail` and `api_error.error`, or any other
exception carrying its message. -/
inductive DispatchResult where
  | ok (json : String)
  | apiExn (detail : String) (apiError : String)
  | exn (msg : String)
deriving DecidableEq, Repr

/-- Oracle for the external API client as seen from `ERC3Tool._run`:
`buildExn` is `some msg` when constructing `self.request_class(**kwargs)`
raises (pydantic validation), and `dispatch` gives the outcome of
dispatching the request built from the given (already clamped) arguments. -/
structure StoreApi where
  buildExn : Kwargs → Option String
  dispatch : Kwargs → DispatchResult

/-- The acknowledgement `ERC3Tool._run` returns when the terminal tool is
invoked after a response was already provided (store_agent.py line 135). -/
def alreadyCompletedMsg : String :=
  "TASK ALREADY COMPLETED - Response was already provided. Stop calling tools."

/-- The suffix appended to a successful terminal dispatch result
(store_agent.py line 158). -/
def taskCompletedSuffix : String :=
  "\n\nTASK COMPLETED SUCCESSFULLY. You have provided the final response. Do not call any more tools. The task is finished."

/-- Result of one `ERC3Tool._run` invocation: the flag state afterwards,
the string returned to the agent loop, and the list of argument sets that
were actually passed on to `store_api.dispatch`. -/
structure ToolRunResult where
  state : RunState
  output : String
  dispatched : List Kwargs
deriving DecidableEq, Repr

/-- `ERC3Tool._run` (store_agent.py lines 129-168).  The already-completed
latch is consulted first for the terminal tool; otherwise the `page`
argument is clamped, the request object is built (a raised validation
error yields an `Error:` string), the request is dispatched (an
`ApiException` yields an `API Error:` string, any other exception an
`Error:` string), and a successful terminal dispatch sets the latch. -/
def ERC3Tool_run (api : StoreApi) (name : String) (st : RunState) (kwargs : Kwargs) :
    ToolRunResult :=
  if st.response_provided = true ∧ name = "Req_ProvideAgentResponse" then
    { state := st, output := alreadyCompletedMsg, dispatched := [] }
  else
    let kw := clampPage kwargs
    match api.buildExn kw with
    | some msg => { state := st, output := "Error: " ++ msg, dispatched := [] }
    | none =>
      match api.dispatch kw with
      | DispatchResult.ok txt =>
        if name = "Req_ProvideAgentResponse" then
          { state := { st with response_provided := true }
            output := txt ++ taskCompletedSuffix
            dispatched := [kw] }
        else
          { state := st, output := txt, dispatched := [kw] }
      | DispatchResult.apiExn detail _ =>
        { state := st, output := "API Error: " ++ detail, dispatched := [kw] }
      | DispatchResult.exn msg =>
        { state := st, output := "Error: " ++ msg, dispatched := [kw] }

/-- The arguments of one call to `verify_function` (the `VerifyInput`
schema, store_agent.py lines 103-112 and 207-216). -/
structure VerifyArgs where
  outcome : String
  employee_links : String
  project_links : String
  customer_links : String
  made_modifications : Bool
  permissions_checked : Bool
  wiki_checked : Bool
  reasoning : String
deriving DecidableEq, Repr

/-- Python's `str.lower()` (over the characters of the string). -/
def pyLower (s : String) : String :=
  String.mk (s.data.map Char.toLower)

/-- Python's `str.strip()`: drop whitespace from both ends. -/
def pyStrip (s : String) : String :=
  String.mk (((s.data.dropWhile fun c => c.isWhitespace).reverse.dropWhile
    fun c => c.isWhitespace).reverse)

/-- Python's `str.split(",")` over a character list: every comma separates,
and the empty string yields `[""]`. -/
def pySplitCommaChars : List Char → List String
  | [] => [""]
  | c :: cs =>
    let rest := pySplitCommaChars cs
    if c = ',' then "" :: rest
    else
      match rest with
      | [] => [String.mk [c]]
      | s :: ss => String.mk (c :: s.data) :: ss

/-- Python's `str.split(",")`. -/
def pySplitComma (s : String) : List String :=
  pySplitCommaChars s.data

/-- Python's substring test `pat in s`. -/
def pyIn (pat s : String) : Bool :=
  (List.range (s.data.length + 1)).any fun i =>
    (s.data.drop i).take pat.data.length == pat.data

/-- The `links_str` summary built in `verify_function`
(store_agent.py lines 224-232): each link field that is truthy and not
(case-insensitively) "none" contributes a labelled part; joined with ", ",
or the literal "none" when no part qualifies. -/
def linksSummary (a : VerifyArgs) : String :=
  let parts :=
    (if a.employee_links ≠ "" ∧ pyLower a.employee_links ≠ "none" then
      ["employees: " ++ a.employee_links] else [])
    ++ (if a.project_links ≠ "" ∧ pyLower a.project_links ≠ "none" then
      ["projects: " ++ a.project_links] else [])
    ++ (if a.customer_links ≠ "" ∧ pyLower a.customer_links ≠ "none" then
      ["customers: " ++ a.customer_links] else [])
  if parts ≠ [] then String.intercalate ", " parts else "none"

/-- The advisory warnings computed by `verify_function`
(store_agent.py lines 242-254), in order. -/
def verifyWarnings (a : VerifyArgs) : List String :=
  (if a.made_modifications = true ∧ a.permissions_checked = false then
    ["WARNING: You made modifications but did not check permissions first!"] else [])
  ++ (if a.outcome = "denied_security" ∧
        (pyLower a.employee_links ≠ "none" ∨ pyLower a.project_links ≠ "none" ∨
          pyLower a.customer_links ≠ "none") then
    ["WARNING: denied_security should have NO links (empty) to prevent information leakage!"]
    else [])
  ++ (if (a.outcome = "error_internal" ∨ a.outcome = "none_unsupported") ∧
        (pyLower a.employee_links ≠ "none" ∨ pyLower a.project_links ≠ "none" ∨
          pyLower a.customer_links ≠ "none") then
    ["WARNING: error_internal/none_unsupported must return with NO links because data is unreliable or unsupported."]
    else [])
  ++ (if a.outcome = "none_clarification_needed" ∧ pyIn "ok_answer" (pyLower a.reasoning) = true then
    ["WARNING: You mentioned ok_answer but chose none_clarification_needed - are you sure?"]
    else [])

/-- The dict stored into `_last_verify_payload` by `verify_function`
(store_agent.py lines 257-263): exactly these five keys, in this order. -/
def recordPayload (a : VerifyArgs) : List (String × String) :=
  [("outcome", a.outcome),
   ("employee_links", a.employee_links),
   ("project_links", a.project_links),
   ("customer_links", a.customer_links),
   ("reasoning", a.reasoning)]

/-- The fixed instruction heading of the text returned by
`verify_function` (store_agent.py lines 267-268). -/
def verifyInstruction : String :=
  "YOUR NEXT AND FINAL ACTION MUST BE:\nCall Req_ProvideAgentResponse with:"

/-- The base result text of `verify_function` before any warnings are
prepended (store_agent.py lines 265-273). -/
def verifyBase (a : VerifyArgs) : String :=
  "Verification recorded.\n\n" ++
    (verifyInstruction ++
      ("\n- outcome: " ++ a.outcome ++ "\n- links: " ++ linksSummary a ++
        "\n- message: (your explanation to user)\n\nDO NOT respond with text. You MUST call the Req_ProvideAgentResponse tool now."))

/-- `verify_function` (store_agent.py lines 207-278): a total function of
its arguments — it always returns, never raises and never blocks progress.
It sets `_verified`, overwrites `_last_verify_payload` with the
five-field dict, and returns the instruction text, with the warnings
block prepended when any warning fired. -/
def verify_function (st : RunState) (a : VerifyArgs) : RunState × String :=
  let result :=
    if verifyWarnings a ≠ [] then
      "⚠️ WARNINGS:\n" ++ String.intercalate "\n" (verifyWarnings a) ++ "\n\n" ++ verifyBase a
    else verifyBase a
  ({ st with verified := true, last_verify_payload := recordPayload a }, result)

/-- A `Req_ProvideAgentResponse` request as built by the fallback code in
`run_agent`: message, outcome, and `(kind, id)` link pairs.  The constant
`tool="/respond"` field is omitted. -/
structure FinalRequest where
  message : String
  outcome : String
  links : List (String × String)
deriving DecidableEq, Repr

/-- The generic response dispatched on the error path of `run_agent`
(store_agent.py lines 1468-1473). -/
def errorInternalRequest : FinalRequest :=
  { message := "An internal error occurred while processing your request. Please try again later."
    outcome := "error_internal"
    links := [] }

/-- Python `x or default` for an optional string (`dict.get` result):
`None` and the empty string are falsy. -/
def pyOrStr (v : Option String) (d : String) : String :=
  match v with
  | none => d
  | some s => if s = "" then d else s

/-- One link field of the fallback link derivation (store_agent.py lines
1441-1445): split the raw list on commas, strip each item, keep the
non-empty ones as `(kind, id)` pairs. -/
def splitLinks (kind raw : String) : List (String × String) :=
  (((pySplitComma raw).map pyStrip).filter fun i => i ≠ "").map fun i => (kind, i)

/-- The guard around one link field (store_agent.py line 1441): the raw
value must be present, truthy, and not (case-insensitively) "none". -/
def linkField (kind : String) (raw : Option String) : List (String × String) :=
  match raw with
  | none => []
  | some r => if r ≠ "" ∧ pyLower r ≠ "none" then splitLinks kind r else []

/-- `safe_outcomes_no_links` (store_agent.py line 1433). -/
def safeOutcomesNoLinks : List String :=
  ["error_internal", "denied_security", "none_unsupported"]

/-- The links of the auto-submitted response (store_agent.py lines
1433-1445): empty for the three no-link outcomes, otherwise gathered from
the three link fields of the payload in employee, project, customer
order. -/
def autoLinks (p : List (String × String)) (outcome : String) : List (String × String) :=
  if outcome ∈ safeOutcomesNoLinks then []
  else
    linkField "employee" (p.lookup "employee_links")
      ++ linkField "project" (p.lookup "project_links")
      ++ linkField "customer" (p.lookup "customer_links")

/-- The auto-submitted response built from `_last_verify_payload` on the
normal-completion fallback path of `run_agent` (store_agent.py lines
1431-1451). -/
def autoRequest (p : List (String × String)) : FinalRequest :=
  let outcome := pyOrStr (p.lookup "outcome") "error_internal"
  { message := pyOrStr (p.lookup "reasoning") "Auto-submitted based on verification step."
    outcome := outcome
    links := autoLinks p outcome }

/-- How the agent loop (`agent_executor.invoke`) ended: normally, or by
raising an exception with the given message. -/
inductive LoopExit where
  | normal
  | error (msg : String)
deriving DecidableEq, Repr

/-- The finalization code of `run_agent` that runs after the agent loop
(store_agent.py lines 1427-1479), as a function of the flag state left by
the loop, the way the loop exited, and whether the fallback dispatch
itself raises.  Returns the flag state afterwards and the list of
`Req_ProvideAgentResponse` requests handed to `store_api.dispatch`.
On normal exit: if no response was provided and a verify payload exists,
the auto request is dispatched and (when dispatch succeeds) the latch is
set; with no payload only a warning is logged and nothing is dispatched.
On an error exit: if no response was provided, the generic
`error_internal` request is dispatched (the latch is not touched) and the
error is re-raised. -/
def run_agent_finalize (st : RunState) (ex : LoopExit) (dispatchRaises : Bool) :
    RunState × List FinalRequest :=
  match ex with
  | LoopExit.normal =>
    if st.response_provided = true then (st, [])
    else if st.verified = true ∧ st.last_verify_payload ≠ [] then
      let req := autoRequest st.last_verify_payload
      if dispatchRaises then (st, [req])
      else ({ st with response_provided := true }, [req])
    else (st, [])
  | LoopExit.error _ =>
    if st.response_provided = true then (st, [])
    else (st, [errorInternalRequest])

/-- The data of one completed model invocation as observed by
`ERC3LoggingCallback.on_llm_end`: the completion text after the
serialization chain (content, else serialized tool calls, else
`additional_kwargs` — possibly still empty), and the token counts read
from the usage metadata. -/
structure LLMEnd where
  completion_text : String
  prompt_tokens : Nat
  completion_tokens : Nat
  cached_prompt_tokens : Nat
deriving DecidableEq, Repr

/-- One usage record as passed to `erc3_api.log_llm`; the fields the
control layer constrains (the float `duration_sec` is omitted). -/
structure UsageRecord where
  completion : String
  prompt_tokens : Nat
  completion_tokens : Nat
  cached_prompt_tokens : Nat
deriving DecidableEq, Repr

/-- The record `on_llm_end` logs for one invocation (store_agent.py lines
1349-1370): the completion text is replaced by the placeholder when empty,
so a logged completion is never empty. -/
def on_llm_end_record (e : LLMEnd) : UsageRecord :=
  { completion := if e.completion_text = "" then "[empty_response]" else e.completion_text
    prompt_tokens := e.prompt_tokens
    completion_tokens := e.completion_tokens
    cached_prompt_tokens := e.cached_prompt_tokens }

/-- The synthetic record logged by `log_final_stats` when no model call
happened (store_agent.py lines 1382-1390). -/
def zeroUsageRecord : UsageRecord :=
  { completion := "[no_llm_calls]"
    prompt_tokens := 0
    completion_tokens := 0
    cached_prompt_tokens := 0 }

/-- `ERC3LoggingCallback.log_final_stats` (store_agent.py lines
1376-1393): given the number of completed invocations counted by
`on_llm_end`, logs exactly one synthetic zero-usage record when that
count is zero and nothing otherwise. -/
def log_final_stats (call_count : Nat) : List UsageRecord :=
  if call_count = 0 then [zeroUsageRecord] else []

/-- All usage records logged during one task: one per completed model
invocation (via `on_llm_end`), then whatever `log_final_stats` adds at
teardown. -/
def taskUsageRecords (invocations : List LLMEnd) : List UsageRecord :=
  invocations.map on_llm_end_record ++ log_final_stats invocations.length

/-- The observable outcome of the tail of `run_agent`: the flag state, the
fallback requests dispatched, and the usage records logged. -/
structure TaskTrace where
  finalState : RunState
  submitted : List FinalRequest
  usage : List UsageRecord
deriving DecidableEq, Repr

/-- The tail of `run_agent` (store_agent.py lines 1411-1482): the
fallback finalization for the given loop exit, then — in a `finally`
block, hence on every exit path, error exits included —
`erc3_callback.log_final_stats()`. -/
def run_agent_teardown (st : RunState) (ex : LoopExit) (dispatchRaises : Bool)
    (invocations : List LLMEnd) : TaskTrace :=
  let fin := run_agent_finalize st ex dispatchRaises
  { finalState := fin.1, submitted := fin.2, usage := taskUsageRecords invocations }

/-- An API oracle whose dispatch always succeeds. -/
def okApi : StoreApi :=
  { buildExn := fun _ => none, dispatch := fun _ => DispatchResult.ok "dispatch-ok" }

/-- An API oracle whose dispatch always raises an `ApiException` with
detail "rate limited". -/
def rateLimitedApi : StoreApi :=
  { buildExn := fun _ => none
    dispatch := fun _ => DispatchResult.apiExn "rate limited" "rl" }

theorem setKey_lookup_ne (l : Kwargs) (k k' : String) (v : PyVal) (h : k' ≠ k) :
    (setKey l k v).lookup k' = l.lookup k' := by
  induction l with
  | nil => rfl
  | cons kv t ih =>
    obtain ⟨k0, v0⟩ := kv
    by_cases hk : k0 = k
    · subst hk
      simp only [setKey, if_pos rfl]
      simp only [List.lookup]
      rw [show (k' == k0) = false from beq_eq_false_iff_ne.mpr h]
      exact ih
    · simp only [setKey, if_neg hk]
      by_cases hk' : k' = k0
      · simp [List.lookup, hk']
      · simp [List.lookup, hk', ih]

theorem setKey_lookup_eq (l : Kwargs) (k : String) (v w : PyVal)
    (h : l.lookup k = some w) : (setKey l k v).lookup k = some v := by
  induction l with
  | nil => simp [List.lookup] at h
  | cons kv t ih =>
    obtain ⟨k0, v0⟩ := kv
    by_cases hk : k = k0
    · subst hk
      simp only [setKey, if_pos rfl]
      simp [List.lookup]
    · simp only [setKey]
      rw [if_neg fun hh => hk hh.symm]
      simp only [List.lookup, hk] at h
      simp only [List.lookup]
      rw [show (k == k0) = false from beq_eq_false_iff_ne.mpr hk] at h ⊢
      exact ih h

/-- C1: once a terminal `Req_ProvideAgentResponse` call has succeeded and
set the completion latch, every subsequent invocation of the terminal
tool — with any API behavior and any arguments — returns the
already-completed acknowledgement and dispatches nothing. -/
theorem terminal_tool_fires_once (api api2 : StoreApi) (st : RunState)
    (kwargs kwargs2 : Kwargs) (txt : String)
    (hprov : st.response_provided = false)
    (hbuild : api.buildExn (clampPage kwargs) = none)
    (hdisp : api.dispatch (clampPage kwargs) = DispatchResult.ok txt) :
    (ERC3Tool_run api "Req_ProvideAgentResponse" st kwargs).state.response_provided = true ∧
    ERC3Tool_run api2 "Req_ProvideAgentResponse"
        (ERC3Tool_run api "Req_ProvideAgentResponse" st kwargs).state kwargs2 =
      { state := (ERC3Tool_run api "Req_ProvideAgentResponse" st kwargs).state
        output := alreadyCompletedMsg
        dispatched := [] } := by
  have h1 : ERC3Tool_run api "Req_ProvideAgentResponse" st kwargs =
      { state := { st with response_provided := true }
        output := txt ++ taskCompletedSuffix
        dispatched := [clampPage kwargs] } := by
    simp [ERC3Tool_run, hprov, hbuild, hdisp]
  rw [h1]
  exact ⟨rfl, by simp [ERC3Tool_run]⟩

theorem terminal_tool_fires_once_witness :
    (ERC3Tool_run okApi "Req_ProvideAgentResponse" initialRunState []).state.response_provided
        = true ∧
    ERC3Tool_run okApi "Req_ProvideAgentResponse"
        (ERC3Tool_run okApi "Req_ProvideAgentResponse" initialRunState []).state
        [("message", PyVal.vstr "a different answer")] =
      { state := (ERC3Tool_run okApi "Req_ProvideAgentResponse" initialRunState []).state
        output := alreadyCompletedMsg
        dispatched := [] } :=
  terminal_tool_fires_once okApi okApi initialRunState []
    [("message", PyVal.vstr "a different answer")] "dispatch-ok" rfl rfl rfl

/-- C5: `ERC3Tool._run` never lets an exception escape: a raised request
validation error is returned as "Error: " followed by its message, a
raised `ApiException` from dispatch as "API Error: " followed by its
detail, and any other dispatch exception as "Error: " followed by its
message — in every case as an ordinary string result with the flag state
unchanged. -/
theorem tool_run_error_strings (api : StoreApi) (name : String) (st : RunState)
    (kwargs : Kwargs)
    (hno : st.response_provided = false ∨ name ≠ "Req_ProvideAgentResponse") :
    (∀ m, api.buildExn (clampPage kwargs) = some m →
      ERC3Tool_run api name st kwargs =
        { state := st, output := "Error: " ++ m, dispatched := [] }) ∧
    (∀ d e, api.buildExn (clampPage kwargs) = none →
      api.dispatch (clampPage kwargs) = DispatchResult.apiExn d e →
      ERC3Tool_run api name st kwargs =
        { state := st, output := "API Error: " ++ d, dispatched := [clampPage kwargs] }) ∧
    (∀ m, api.buildExn (clampPage kwargs) = none →
      api.dispatch (clampPage kwargs) = DispatchResult.exn m →
      ERC3Tool_run api name st kwargs =
        { state := st, output := "Error: " ++ m, dispatched := [clampPage kwargs] }) := by
  have hguard : ¬(st.response_provided = true ∧ name = "Req_ProvideAgentResponse") := by
    rcases hno with h | h
    · exact fun hc => by rw [h] at hc; exact Bool.false_ne_true hc.1
    · exact fun hc => h hc.2
  refine ⟨fun m hb => ?_, fun d e hb hd => ?_, fun m hb hd => ?_⟩
  · simp [ERC3Tool_run, hguard, hb]
  · simp [ERC3Tool_run, hguard, hb, hd]
  · simp [ERC3Tool_run, hguard, hb, hd]

theorem tool_run_error_strings_witness :
    ERC3Tool_run rateLimitedApi "Req_SearchProjects" initialRunState [] =
      { state := initialRunState
        output := "API Error: " ++ "rate limited"
        dispatched := [clampPage []] } :=
  (tool_run_error_strings rateLimitedApi "Req_SearchProjects" initialRunState []
      (Or.inl rfl)).2.1 "rate limited" "rl" rfl rfl

/-- C6: a `page` argument greater than 5 is clamped to 5 before the
request is built and dispatched, a `page` of at most 5 is left exactly as
is, every other argument field is passed through unchanged, and the
clamped call is dispatched normally rather than rejected. -/
theorem page_clamped_to_five (kwargs : Kwargs) (n : Int)
    (h5 : kwargs.lookup "page" = some (PyVal.vint n)) :
    (5 < n → (clampPage kwargs).lookup "page" = some (PyVal.vint 5)) ∧
    (n ≤ 5 → clampPage kwargs = kwargs) ∧
    (∀ k, k ≠ "page" → (clampPage kwargs).lookup k = kwargs.lookup k) ∧
    (∀ api name st txt,
      (st.response_provided = false ∨ name ≠ "Req_ProvideAgentResponse") →
      api.buildExn (clampPage kwargs) = none →
      api.dispatch (clampPage kwargs) = DispatchResult.ok txt →
      (ERC3Tool_run api name st kwargs).dispatched = [clampPage kwargs]) := by
  have hc : clampPage kwargs =
      if n > 5 then setKey kwargs "page" (PyVal.vint 5) else kwargs := by
    unfold clampPage
    rw [h5]
  refine ⟨fun h => ?_, fun h => ?_, fun k hk => ?_, fun api name st txt hno hb hd => ?_⟩
  · rw [hc, if_pos h]
    exact setKey_lookup_eq kwargs "page" _ _ h5
  · rw [hc, if_neg (not_lt.mpr h)]
  · rw [hc]
    by_cases hgt : n > 5
    · rw [if_pos hgt]
      exact setKey_lookup_ne kwargs "page" k _ hk
    · rw [if_neg hgt]
  · rcases hno with hresp | hname
    · by_cases hn : name = "Req_ProvideAgentResponse" <;>
        simp [ERC3Tool_run, hresp, hb, hd, hn]
    · simp [ERC3Tool_run, hname, hb, hd]

/-- Arguments carrying an oversized page together with another field. -/
def pageKwargs : Kwargs := [("page", PyVal.vint 7), ("query", PyVal.vstr "boards")]

theorem page_clamped_to_five_witness :
    (clampPage pageKwargs).lookup "page" = some (PyVal.vint 5) ∧
    (clampPage pageKwargs).lookup "query" = pageKwargs.lookup "query" ∧
    (ERC3Tool_run okApi "Req_SearchProjects" initialRunState pageKwargs).dispatched =
      [clampPage pageKwargs] := by
  have h := page_clamped_to_five pageKwargs 7 rfl
  exact ⟨h.1 (by decide),
    h.2.2.1 "query" (by decide),
    h.2.2.2 okApi "Req_SearchProjects" initialRunState "dispatch-ok" (Or.inl rfl) rfl rfl⟩

/-- C10: when the terminal tool is invoked with the latch unset and the
dispatch raises, the call returns an error string and leaves the latch
unset; the latch becomes set only through a dispatch that succeeded, and
a later terminal invocation from that unchanged state is dispatched
normally rather than intercepted. -/
theorem terminal_error_leaves_latch_unset (api : StoreApi) (st : RunState) (kwargs : Kwargs)
    (hprov : st.response_provided = false) :
    (∀ d e, api.buildExn (clampPage kwargs) = none →
      api.dispatch (clampPage kwargs) = DispatchResult.apiExn d e →
      ERC3Tool_run api "Req_ProvideAgentResponse" st kwargs =
        { state := st, output := "API Error: " ++ d, dispatched := [clampPage kwargs] }) ∧
    (∀ m, api.buildExn (clampPage kwargs) = none →
      api.dispatch (clampPage kwargs) = DispatchResult.exn m →
      ERC3Tool_run api "Req_ProvideAgentResponse" st kwargs =
        { state := st, output := "Error: " ++ m, dispatched := [clampPage kwargs] }) ∧
    ((ERC3Tool_run api "Req_ProvideAgentResponse" st kwargs).state.response_provided = true →
      ∃ txt, api.buildExn (clampPage kwargs) = none ∧
        api.dispatch (clampPage kwargs) = DispatchResult.ok txt) ∧
    (∀ api2 kwargs2 txt2,
      api2.buildExn (clampPage kwargs2) = none →
      api2.dispatch (clampPage kwargs2) = DispatchResult.ok txt2 →
      ERC3Tool_run api2 "Req_ProvideAgentResponse" st kwargs2 =
        { state := { st with response_provided := true }
          output := txt2 ++ taskCompletedSuffix
          dispatched := [clampPage kwargs2] }) := by
  refine ⟨fun d e hb hd => ?_, fun m hb hd => ?_, fun h => ?_,
    fun api2 kwargs2 txt2 hb hd => ?_⟩
  · simp [ERC3Tool_run, hprov, hb, hd]
  · simp [ERC3Tool_run, hprov, hb, hd]
  · cases hb : api.buildExn (clampPage kwargs) with
    | some m => simp [ERC3Tool_run, hprov, hb] at h
    | none =>
      cases hd : api.dispatch (clampPage kwargs) with
      | ok txt => exact ⟨txt, rfl, rfl⟩
      | apiExn d e => simp [ERC3Tool_run, hprov, hb, hd] at h
      | exn m => simp [ERC3Tool_run, hprov, hb, hd] at h
  · simp [ERC3Tool_run, hprov, hb, hd]

theorem terminal_error_leaves_latch_unset_witness :
    ERC3Tool_run rateLimitedApi "Req_ProvideAgentResponse" initialRunState [] =
      { state := initialRunState
        output := "API Error: " ++ "rate limited"
        dispatched := [clampPage []] } ∧
    ERC3Tool_run okApi "Req_ProvideAgentResponse" initialRunState [] =
      { state := { initialRunState with response_provided := true }
        output := "dispatch-ok" ++ taskCompletedSuffix
        dispatched := [clampPage []] } := by
  have h := terminal_error_leaves_latch_unset rateLimitedApi initialRunState [] rfl
  exact ⟨h.1 "rate limited" "rl" rfl rfl, h.2.2.2 okApi [] "dispatch-ok" rfl rfl⟩

/-- C8: a verify call always returns (its embedding is a total function),
its text carries the instruction to issue the terminal call next, and the
warnings block is prepended exactly when one of the four risky
combinations holds on the arguments. -/
theorem verify_warns_exactly_when (st : RunState) (a : VerifyArgs) :
    (verify_function st a).2 =
      (if verifyWarnings a ≠ [] then
        "⚠️ WARNINGS:\n" ++ String.intercalate "\n" (verifyWarnings a) ++ "\n\n" ++ verifyBase a
      else verifyBase a) ∧
    (∃ rest, verifyBase a = "Verification recorded.\n\n" ++ (verifyInstruction ++ rest)) ∧
    (verifyWarnings a ≠ [] ↔
      ((a.made_modifications = true ∧ a.permissions_checked = false) ∨
       (a.outcome = "denied_security" ∧
         (pyLower a.employee_links ≠ "none" ∨ pyLower a.project_links ≠ "none" ∨
           pyLower a.customer_links ≠ "none")) ∨
       ((a.outcome = "error_internal" ∨ a.outcome = "none_unsupported") ∧
         (pyLower a.employee_links ≠ "none" ∨ pyLower a.project_links ≠ "none" ∨
           pyLower a.customer_links ≠ "none")) ∨
       (a.outcome = "none_clarification_needed" ∧
         pyIn "ok_answer" (pyLower a.reasoning) = true))) := by
  refine ⟨rfl, ⟨_, rfl⟩, ?_⟩
  unfold verifyWarnings
  split_ifs <;> simp_all

/-- A concrete verify call with all three compliance flags set. -/
def verifyArgsCex : VerifyArgs :=
  { outcome := "ok_answer", employee_links := "emp_1", project_links := "none",
    customer_links := "none", made_modifications := true, permissions_checked := true,
    wiki_checked := true, reasoning := "answered the question" }

/-- C9 counterexample: the payload recorded by this verify call carries no
`made_modifications`, `permissions_checked` or `wiki_checked` entry — only
the outcome, the three link fields and the reasoning are stored — so the
recorded payload does not contain all declared VerifyPayload fields. -/
theorem verify_payload_drops_flags_cex :
    ((verify_function initialRunState verifyArgsCex).1.last_verify_payload.lookup
        "made_modifications" = none) ∧
    ((verify_function initialRunState verifyArgsCex).1.last_verify_payload.lookup
        "permissions_checked" = none) ∧
    ((verify_function initialRunState verifyArgsCex).1.last_verify_payload.lookup
        "wiki_checked" = none) ∧
    (verify_function initialRunState verifyArgsCex).1.last_verify_payload.map Prod.fst =
      ["outcome", "employee_links", "project_links", "customer_links", "reasoning"] :=
  ⟨rfl, rfl, rfl, rfl⟩

/-- C9 (amended): every verify call sets the verified flag and records a
payload holding exactly the outcome, the three link fields and the
reasoning — the boolean flags made_modifications, permissions_checked and
wiki_checked are used only for the warnings and are not stored — and that
recorded payload is the one the fallback finalizer consumes. -/
theorem verify_records_five_field_payload (st : RunState) (a : VerifyArgs) :
    (verify_function st a).1 =
      { st with verified := true, last_verify_payload := recordPayload a } ∧
    (recordPayload a).lookup "outcome" = some a.outcome ∧
    (recordPayload a).lookup "employee_links" = some a.employee_links ∧
    (recordPayload a).lookup "project_links" = some a.project_links ∧
    (recordPayload a).lookup "customer_links" = some a.customer_links ∧
    (recordPayload a).lookup "reasoning" = some a.reasoning ∧
    (recordPayload a).map Prod.fst =
      ["outcome", "employee_links", "project_links", "customer_links", "reasoning"] ∧
    (st.response_provided = false → ∀ dr,
      (run_agent_finalize (verify_function st a).1 LoopExit.normal dr).2 =
        [autoRequest (recordPayload a)]) := by
  refine ⟨rfl, rfl, rfl, rfl, rfl, rfl, rfl, fun h dr => ?_⟩
  have hne : recordPayload a ≠ [] := by simp [recordPayload]
  cases dr <;> simp [run_agent_finalize, verify_function, h, hne]

theorem verify_records_five_field_payload_witness :
    initialRunState.response_provided = false ∧
    (run_agent_finalize (verify_function initialRunState verifyArgsCex).1
        LoopExit.normal false).2 = [autoRequest (recordPayload verifyArgsCex)] :=
  ⟨rfl, (verify_records_five_field_payload initialRunState verifyArgsCex).2.2.2.2.2.2.2
    rfl false⟩

/-- The verify call of the spec scenario for C2: outcome ok_not_found. -/
def verifyNotFoundArgs : VerifyArgs :=
  { outcome := "ok_not_found", employee_links := "emp_1", project_links := "none",
    customer_links := "none", made_modifications := false, permissions_checked := true,
    wiki_checked := true, reasoning := "The employee could not be found." }

/-- C2 counterexample: after a verify call recording outcome ok_not_found,
an unhandled error in the agent loop makes the fallback dispatch the
generic error_internal response with empty links — not the verified
ok_not_found outcome with its links. -/
theorem error_path_ignores_verify_cex :
    (verify_function initialRunState verifyNotFoundArgs).1.verified = true ∧
    (verify_function initialRunState verifyNotFoundArgs).1.last_verify_payload.lookup
        "outcome" = some "ok_not_found" ∧
    (run_agent_finalize (verify_function initialRunState verifyNotFoundArgs).1
        (LoopExit.error "unhandled agent error") false).2 = [errorInternalRequest] ∧
    errorInternalRequest.outcome = "error_internal" ∧
    errorInternalRequest.links = [] ∧
    errorInternalRequest.outcome ≠ "ok_not_found" :=
  ⟨rfl, rfl, rfl, rfl, rfl, by decide⟩

/-- C2 (amended): when the agent loop raises an unhandled error and no
terminal response was provided, the except-path fallback submits the
generic error_internal response with empty links regardless of any
earlier verify; the verified payload is reproduced only on a normal
exit. -/
theorem error_exit_submits_error_internal (st : RunState) (m : String) (dr : Bool)
    (hresp : st.response_provided = false) :
    (run_agent_finalize st (LoopExit.error m) dr).2 = [errorInternalRequest] ∧
    (run_agent_finalize st (LoopExit.error m) dr).1 = st ∧
    errorInternalRequest.outcome = "error_internal" ∧
    errorInternalRequest.links = [] := by
  refine ⟨?_, ?_, rfl, rfl⟩ <;> simp [run_agent_finalize, hresp]

theorem error_exit_submits_error_internal_witness :
    (run_agent_finalize (verify_function initialRunState verifyNotFoundArgs).1
        (LoopExit.error "boom") false).2 = [errorInternalRequest] :=
  (error_exit_submits_error_internal (verify_function initialRunState verifyNotFoundArgs).1
    "boom" false rfl).1

/-- C3 counterexample: when the loop completes normally with the initial
flag state (no verify, no terminal call), the fallback dispatches nothing
at all — no error_internal submission reaches the API on this path. -/
theorem normal_exit_no_verify_submits_nothing_cex :
    (run_agent_finalize initialRunState LoopExit.normal false).2 = [] ∧
    (run_agent_finalize initialRunState LoopExit.normal false).1 = initialRunState :=
  ⟨rfl, rfl⟩

/-- C3 (amended): on normal loop completion with no successful terminal
call and no verify payload, the fallback submits nothing and only logs a
warning; the generic error_internal submission with empty links happens
only on the unhandled-error exit path. -/
theorem normal_exit_no_verify_no_submission (st : RunState) (dr : Bool)
    (hresp : st.response_provided = false)
    (hnv : st.verified = false ∨ st.last_verify_payload = []) :
    (run_agent_finalize st LoopExit.normal dr).2 = [] ∧
    (run_agent_finalize st LoopExit.normal dr).1 = st ∧
    (∀ m, (run_agent_finalize st (LoopExit.error m) dr).2 = [errorInternalRequest]) := by
  have hcond : ¬(st.verified = true ∧ st.last_verify_payload ≠ []) := by
    rcases hnv with h | h
    · exact fun hc => by rw [h] at hc; exact Bool.false_ne_true hc.1
    · exact fun hc => hc.2 h
  refine ⟨?_, ?_, fun m => ?_⟩ <;> simp [run_agent_finalize, hresp, hcond]

theorem normal_exit_no_verify_no_submission_witness :
    (run_agent_finalize initialRunState LoopExit.normal true).2 = [] :=
  (normal_exit_no_verify_no_submission initialRunState true rfl (Or.inl rfl)).1

/-- The closed outcome enumeration of the spec's data model. -/
def outcomeKinds : List String :=
  ["ok_answer", "denied_security", "none_unsupported", "none_clarification_needed",
   "ok_not_found", "error_internal"]

/-- C4: on normal loop completion with a verify payload recorded and no
terminal response provided, the fallback submits exactly one response;
its outcome is the payload's outcome, its links are parsed from the
payload's comma-separated link lists, and the link set is forced empty
whenever the outcome is error_internal, denied_security or
none_unsupported, regardless of the declared links. -/
theorem fallback_reproduces_verified_outcome (st : RunState) (a : VerifyArgs) (dr : Bool)
    (hresp : st.response_provided = false)
    (hout : a.outcome ∈ outcomeKinds) :
    (run_agent_finalize (verify_function st a).1 LoopExit.normal dr).2 =
      [autoRequest (recordPayload a)] ∧
    (autoRequest (recordPayload a)).outcome = a.outcome ∧
    ((a.outcome = "error_internal" ∨ a.outcome = "denied_security" ∨
        a.outcome = "none_unsupported") → (autoRequest (recordPayload a)).links = []) ∧
    (a.outcome ∉ safeOutcomesNoLinks →
      (autoRequest (recordPayload a)).links =
        linkField "employee" (some a.employee_links) ++
          linkField "project" (some a.project_links) ++
          linkField "customer" (some a.customer_links)) := by
  have hne : a.outcome ≠ "" := by
    simp [outcomeKinds] at hout
    rcases hout with h | h | h | h | h | h <;> simp [h]
  have l1 : (recordPayload a).lookup "outcome" = some a.outcome := rfl
  have l2 : (recordPayload a).lookup "employee_links" = some a.employee_links := rfl
  have l3 : (recordPayload a).lookup "project_links" = some a.project_links := rfl
  have l4 : (recordPayload a).lookup "customer_links" = some a.customer_links := rfl
  have hpy : pyOrStr (some a.outcome) "error_internal" = a.outcome := by
    simp [pyOrStr, hne]
  refine ⟨?_, ?_, fun h => ?_, fun h => ?_⟩
  · have hpl : recordPayload a ≠ [] := by simp [recordPayload]
    cases dr <;> simp [run_agent_finalize, verify_function, hresp, hpl]
  · simp [autoRequest, l1, hpy]
  · have hmem : a.outcome ∈ safeOutcomesNoLinks := by
      rcases h with h | h | h <;> simp [safeOutcomesNoLinks, h]
    simp only [autoRequest, l1, hpy]
    rw [autoLinks, if_pos hmem]
  · simp only [autoRequest, l1, hpy]
    rw [autoLinks, if_neg h, l2, l3, l4]

/-- The verify call of the spec's C4 scenario: ok_answer with a single
employee link. -/
def verifyOkAnswerArgs : VerifyArgs :=
  { outcome := "ok_answer", employee_links := "emp_1", project_links := "none",
    customer_links := "none", made_modifications := false, permissions_checked := true,
    wiki_checked := true, reasoning := "Found the requested employee." }

theorem fallback_reproduces_verified_outcome_witness :
    (run_agent_finalize (verify_function initialRunState verifyOkAnswerArgs).1
        LoopExit.normal false).2 = [autoRequest (recordPayload verifyOkAnswerArgs)] ∧
    (autoRequest (recordPayload verifyOkAnswerArgs)).outcome = "ok_answer" ∧
    (autoRequest (recordPayload verifyOkAnswerArgs)).links = [("employee", "emp_1")] := by
  have h := fallback_reproduces_verified_outcome initialRunState verifyOkAnswerArgs false
    rfl (by decide)
  exact ⟨h.1, h.2.1, by decide⟩

theorem on_llm_end_record_completion_ne (e : LLMEnd) :
    (on_llm_end_record e).completion ≠ "" := by
  simp only [on_llm_end_record]
  split_ifs with hc
  · decide
  · exact hc

/-- C7: the usage accounting of a task — the per-invocation records from
`on_llm_end` followed by `log_final_stats` in the `finally` block — runs
on every exit path, logs at least one record per task, logs exactly one
synthetic zero-usage record (all token counts zero, non-empty completion
text) when zero model invocations occurred, and never logs an empty
completion text. -/
theorem usage_always_logged (st : RunState) (ex : LoopExit) (dr : Bool)
    (invs : List LLMEnd) :
    (run_agent_teardown st ex dr invs).usage = taskUsageRecords invs ∧
    1 ≤ (run_agent_teardown st ex dr invs).usage.length ∧
    (invs = [] → (run_agent_teardown st ex dr invs).usage = [zeroUsageRecord]) ∧
    zeroUsageRecord.prompt_tokens = 0 ∧
    zeroUsageRecord.completion_tokens = 0 ∧
    zeroUsageRecord.cached_prompt_tokens = 0 ∧
    zeroUsageRecord.completion ≠ "" ∧
    (∀ r ∈ (run_agent_teardown st ex dr invs).usage, r.completion ≠ "") := by
  have husage : (run_agent_teardown st ex dr invs).usage = taskUsageRecords invs := rfl
  refine ⟨husage, ?_, fun h => ?_, rfl, rfl, rfl, by decide, fun r hr => ?_⟩
  · rw [husage]
    cases invs with
    | nil => simp [taskUsageRecords, log_final_stats]
    | cons e t => simp [taskUsageRecords]
  · rw [husage, h]
    rfl
  · rw [husage] at hr
    rcases List.mem_append.mp hr with h1 | h2
    · obtain ⟨e, _, rfl⟩ := List.mem_map.mp h1
      exact on_llm_end_record_completion_ne e
    · by_cases hn : invs.length = 0
      · simp [log_final_stats, hn] at h2
        subst h2
        decide
      · simp [log_final_stats, hn] at h2

theorem usage_always_logged_witness :
    ([] : List LLMEnd) = [] ∧
    (run_agent_teardown initialRunState (LoopExit.error "boom") false []).usage =
      [zeroUsageRecord] :=
  ⟨rfl, (usage_always_logged initialRunState (LoopExit.error "boom") false []).2.2.1 rfl⟩



